import Mathlib

/-!
Verification of the `lspit` command-line LSP client (Go sources: `client.go`,
`main.go`, `utils.go`) against its natural-language specification.

The development shallowly embeds the claim-relevant parts of the source:

* Go `int` arithmetic is modelled as `Int` with explicit two's-complement
  wrap-around at 64 bits (`int64wrap`).
* Decoded JSON values (Go's `interface{}` universe after `json.Unmarshal`:
  nil, string, number, bool, `[]interface{}`, `map[string]interface{}`) are
  modelled by the inductive type `Json`.  A `json.RawMessage` that may be the
  nil slice (absent member) is modelled as `Option Json` (`none` = nil raw
  bytes, `some j` = raw bytes holding the JSON value `j`, including
  `some .null` for the explicit literal `null`).
* The framed-transport read path of `readLoop` is modelled over a `List Char`
  input stream; reading returns `none` when the stream is exhausted before a
  complete frame is available (the Go code `return`s from the read loop).
* The effectful session operations `Initialize` and `Close` are modelled as
  functions from a client state to a state plus a trace of wire/lifecycle
  events, so that ordering claims become statements about the trace.
-/

/-- Two's-complement wrap-around at 64 bits: the semantics of Go's `int`
(64-bit on all platforms this tool targets).  `9223372036854775808 = 2^63`,
`18446744073709551616 = 2^64`. -/
def int64wrap (x : Int) : Int :=
  (x + 9223372036854775808) % 18446744073709551616 - 9223372036854775808

/-- Outbound position conversion in `Hover` (client.go lines 169-172):
`"line": line - 1, "character": col - 1` ("LSP uses 0-indexed"). -/
def hoverWirePosition (line col : Int) : Int × Int :=
  (int64wrap (line - 1), int64wrap (col - 1))

/-- Outbound position conversion in `Definition` (client.go lines 231-234),
textually identical to the one in `Hover`. -/
def definitionWirePosition (line col : Int) : Int × Int :=
  (int64wrap (line - 1), int64wrap (col - 1))

/-- Outbound position conversion in `References` (client.go lines 295-298),
textually identical to the one in `Hover`. -/
def referencesWirePosition (line col : Int) : Int × Int :=
  (int64wrap (line - 1), int64wrap (col - 1))

/-- Inbound position conversion in `displayLocations` (client.go lines
483-485): `line := loc.Range.Start.Line + 1; col := loc.Range.Start.Character
+ 1` ("Convert 0-indexed to 1-indexed for display"). -/
def displayPosition (line character : Int) : Int × Int :=
  (int64wrap (line + 1), int64wrap (character + 1))

/-- Model of `getNextID` (client.go lines 334-340): under the client mutex,
`id := c.nextID; c.nextID++; return id`.  Modelled as a pure transition on the
`nextID` field; the mutex serializes concurrent callers, so every concurrent
execution is some sequential interleaving of these atomic transitions. -/
def getNextID (nextID : Int) : Int × Int :=
  (nextID, int64wrap (nextID + 1))

/-- Running `n` successive calls of `getNextID` starting from counter state `s`:
the list of returned ids together with the final counter state.
`NewLSPClient` (client.go line 57) initializes the counter to `1`. -/
def runCalls : Nat → Int → List Int × Int
  | 0, s => ([], s)
  | n + 1, s =>
    let p := getNextID s
    let q := runCalls n p.2
    (p.1 :: q.1, q.2)

/-- Decoded JSON values: the universe Go's `encoding/json` decodes into an
`interface{}` (nil, string, number, bool, `[]interface{}`,
`map[string]interface{}`).  Numbers are modelled as integers; no claim in
this development depends on fractional values. -/
inductive Json where
  | null
  | str (s : String)
  | num (n : Int)
  | bool (b : Bool)
  | arr (items : List Json)
  | obj (fields : List (String × Json))

/-- Access `m[key]` on a decoded JSON object (Go map access: `none` when the
key is absent).  Objects produced by `json.Unmarshal` have unique keys, so
first-match lookup agrees with Go map semantics. -/
def lookupField : List (String × Json) → String → Option Json
  | [], _ => none
  | (k, v) :: rest, key => if k = key then some v else lookupField rest key

/-- The response-dispatch step of `readLoop` (client.go lines 420-427):
`if ch, ok := c.responses[*msg.ID]; ok { ch <- msg.Result;
delete(c.responses, *msg.ID) }`, executed under the client mutex.  The
`responses` map is modelled as a function from id to an optional channel
handle; the return value carries the updated map and, when a handle was
registered, the delivery (handle, raw result) that was pushed into its
1-buffered channel. -/
def deliver (responses : Int → Option Nat) (id : Int) (result : Option Json) :
    (Int → Option Nat) × Option (Nat × Option Json) :=
  match responses id with
  | some ch => (fun x => if x = id then none else responses x, some (ch, result))
  | none => (responses, none)

/-- Decoding the `id` member into the Go field `ID *int` (client.go lines
410-413): an absent or `null` member leaves the pointer nil; a number sets
it; any other shape is an unmarshal error (outer `none`), which makes
`readLoop` skip the message (`continue`, line 415-417). -/
def decodeId : Option Json → Option (Option Int)
  | none => some none
  | some .null => some none
  | some (.num n) => some (some n)
  | some _ => none

/-- Decoding one incoming message body in `readLoop` (client.go lines
409-417): `var msg struct { ID *int; Result json.RawMessage }`.  Only the
`id` and `result` members are decoded; every other member (in particular
`error`) is discarded.  `Result` is a `json.RawMessage`: absent member keeps
the nil slice (`none`), a present member — even the literal `null` — keeps
its raw bytes (`some j`).  A body that is not a JSON object or `null` fails
to unmarshal into the struct (outer `none`). -/
def decodeMessage : Json → Option (Option Int × Option Json)
  | .obj fields =>
    match decodeId (lookupField fields "id") with
    | none => none
    | some idv => some (idv, lookupField fields "result")
  | .null => some (none, none)
  | _ => none

/-- Model of `strings.HasPrefix` on character lists: `hasPrefixCh s p` is true when
`p` is a leading segment of `s`. -/
def prefHolds : List Char → List Char → Bool
  | [], _ => true
  | _ :: _, [] => false
  | pc :: ps, c :: cs => c == pc && prefHolds ps cs

/-- Model of `strings.HasPrefix(s, p)`, with the recursion structured on the sought
leading segment `p` (see `prefHolds`). -/
def hasPrefixCh (s p : List Char) : Bool :=
  prefHolds p s

/-- Model of `strings.HasSuffix` on character lists. -/
def hasSuffixCh (s p : List Char) : Bool :=
  hasPrefixCh s.reverse p.reverse

/-- Model of `strings.TrimPrefix` on character lists: drop `p` from the front of `s`
when it is a leading segment, otherwise return `s` unchanged. -/
def trimPrefixCh (s p : List Char) : List Char :=
  if hasPrefixCh s p then s.drop p.length else s

/-- Model of `strings.TrimSuffix` on character lists: drop `p` from the end of `s`
when it is a trailing segment, otherwise return `s` unchanged. -/
def trimSuffixCh (s p : List Char) : List Char :=
  if hasSuffixCh s p then s.take (s.length - p.length) else s

/-- Model of `strings.TrimPrefix` lifted back to `String` (used for the `file://`
scheme strip in `displayLocations`, client.go line 482). -/
def goTrimPrefixStr (s p : String) : String :=
  ⟨trimPrefixCh s.data p.data⟩

/-- The markdown-code-block cleanup applied to an object's `value` string in
`displayHoverInfo` (client.go lines 446-448):
`value = strings.TrimPrefix(value, "```go\n")`,
then `value = strings.TrimPrefix(value, "```\n")`,
then `value = strings.TrimSuffix(value, "\n```")`. -/
def displayHoverValueCh (value : List Char) : List Char :=
  trimSuffixCh (trimPrefixCh (trimPrefixCh value "```go\n".data) "```\n".data) "\n```".data

/-- String-level wrapper of `displayHoverValueCh`. -/
def displayHoverValue (value : String) : String :=
  ⟨displayHoverValueCh value.data⟩

/-- The `[]interface{}` branch of `displayHoverInfo` (client.go lines
451-460): print plain strings and the `value` string of tagged objects (no
fence cleanup in this branch); every other element prints nothing. -/
def displayHoverItems : List Json → List String
  | [] => []
  | .str s :: rest => s :: displayHoverItems rest
  | .obj fields :: rest =>
    (match lookupField fields "value" with
     | some (.str value) => [value]
     | _ => []) ++ displayHoverItems rest
  | _ :: rest => displayHoverItems rest

/-- Model of `displayHoverInfo` (client.go lines 433-464), returning the printed
lines.  `contents == nil` prints the no-information message; the type switch
handles `string`, `map[string]interface{}` (printing only when `value` is a
string), and `[]interface{}`; any other dynamic type (number, bool) matches
no case, prints nothing, and the function still returns nil error. -/
def displayHoverInfo : Json → List String
  | .null => ["No hover information available"]
  | .str s => [s]
  | .obj fields =>
    match lookupField fields "value" with
    | some (.str value) => [displayHoverValue value]
    | _ => []
  | .arr items => displayHoverItems items
  | _ => []

/-- Decoding the raw hover response into `struct { Contents interface{};
Range interface{} }` (client.go lines 187-194).  A nil `json.RawMessage`
(absent `result` member) fails to unmarshal ("unexpected end of JSON
input"); the literal `null` leaves the zero struct (`Contents = nil`); an
object takes its `contents` member (absent member leaves nil); any other
top-level shape cannot unmarshal into a struct. -/
def parseHoverContents : Option Json → Except String Json
  | none => .error "unexpected end of JSON input"
  | some .null => .ok .null
  | some (.obj fields) => .ok ((lookupField fields "contents").getD .null)
  | some _ => .error "json: cannot unmarshal value into hover result struct"

/-- The tail of `Hover` after the response arrives (client.go lines 184-197):
unmarshal errors are returned to the caller; otherwise the hover contents are
displayed and the call succeeds.  The value is the list of printed lines or
the error. -/
def hoverHandleResponse (resp : Option Json) : Except String (List String) :=
  match parseHoverContents resp with
  | .error e => .error e
  | .ok contents => .ok (displayHoverInfo contents)

/-- The decoded form of one definition/references result entry (client.go
lines 248-256): URI plus the start position of the range. -/
structure Location where
  uri : String
  line : Int
  character : Int

/-- Go `json` decoding of a member into a `string` field: absent or `null`
leaves the zero value, a string sets it, anything else is a type error. -/
def decodeStringField : Option Json → Except String String
  | none => .ok ""
  | some .null => .ok ""
  | some (.str s) => .ok s
  | some _ => .error "json: cannot unmarshal value into field of type string"

/-- Go `json` decoding of a member into an `int` field: absent or `null`
leaves the zero value, a number sets it, anything else is a type error. -/
def decodeIntField : Option Json → Except String Int
  | none => .ok 0
  | some .null => .ok 0
  | some (.num n) => .ok n
  | some _ => .error "json: cannot unmarshal value into field of type int"

/-- Decoding the `start` member of a `range` object into
`struct { Line int; Character int }`. -/
def decodeStart : Option Json → Except String (Int × Int)
  | none => .ok (0, 0)
  | some .null => .ok (0, 0)
  | some (.obj fields) =>
    match decodeIntField (lookupField fields "line") with
    | .error e => .error e
    | .ok l =>
      match decodeIntField (lookupField fields "character") with
      | .error e => .error e
      | .ok c => .ok (l, c)
  | some _ => .error "json: cannot unmarshal value into start struct"

/-- Decoding the `range` member of a location object. -/
def decodeRange : Option Json → Except String (Int × Int)
  | none => .ok (0, 0)
  | some .null => .ok (0, 0)
  | some (.obj fields) => decodeStart (lookupField fields "start")
  | some _ => .error "json: cannot unmarshal value into range struct"

/-- Decoding one element of the location array (client.go lines 248-256):
`null` leaves a zero struct; an object decodes its `uri` and
`range.start`; any other shape is a type error.  (Go's decoder reports the
first type error it records; error identity beyond "is an error" is not
relied upon by any claim.) -/
def parseLocationItem : Json → Except String Location
  | .null => .ok ⟨"", 0, 0⟩
  | .obj fields =>
    match decodeStringField (lookupField fields "uri") with
    | .error e => .error e
    | .ok uri =>
      match decodeRange (lookupField fields "range") with
      | .error e => .error e
      | .ok sc => .ok ⟨uri, sc.1, sc.2⟩
  | _ => .error "json: cannot unmarshal value into location struct"

/-- Decoding the raw definition/references response into `[]struct{...}`
(client.go lines 258, 325): nil raw bytes fail ("unexpected end of JSON
input"); the literal `null` leaves the nil slice; an array decodes
element-wise; any other top-level shape cannot unmarshal into a slice. -/
def parseLocations : Option Json → Except String (List Location)
  | none => .error "unexpected end of JSON input"
  | some .null => .ok []
  | some (.arr items) => items.mapM parseLocationItem
  | some _ => .error "json: cannot unmarshal value into location slice"

/-- Model of `displayLocations` (client.go lines 466-490), returning the printed
lines: the empty list prints "No locations found"; otherwise one
`path:line:col` line per location with the `file://` scheme stripped and the
position converted back to 1-indexed via `displayPosition`. -/
def displayLocations (locations : List Location) : List String :=
  if locations.length = 0 then ["No locations found"]
  else
    locations.map fun loc =>
      let path := goTrimPrefixStr loc.uri "file://"
      let p := displayPosition loc.line loc.character
      path ++ ":" ++ toString p.1 ++ ":" ++ toString p.2

/-- The tail of `Definition` after the response arrives (client.go lines
245-262): unmarshal errors are returned; otherwise the locations are
displayed and the call succeeds. -/
def definitionHandleResponse (resp : Option Json) : Except String (List String) :=
  match parseLocations resp with
  | .error e => .error e
  | .ok locs => .ok (displayLocations locs)

/-- The tail of `References` after the response arrives (client.go lines
312-329), textually identical to the one in `Definition`. -/
def referencesHandleResponse (resp : Option Json) : Except String (List String) :=
  match parseLocations resp with
  | .error e => .error e
  | .ok locs => .ok (displayLocations locs)

/-- The process exit code `main` (main.go) produces for one query result:
a query error prints a diagnostic and calls `os.Exit(1)`; a successful query
falls through to the end of `main`, exit code 0. -/
def mainExitCode (r : Except String (List String)) : Nat :=
  match r with
  | .ok _ => 0
  | .error _ => 1

/-- Model of `bufio.Reader.ReadString('\n')` as used by `readLoop` (client.go line
385): return the line up to and including the newline together with the
remaining stream.  When the stream is exhausted before a newline is seen the
Go call returns a non-nil error and `readLoop` returns (`none`).  The stream
models every byte the server emits before closing its side. -/
def readStringNL : List Char → Option (List Char × List Char)
  | [] => none
  | c :: cs =>
    if c = '\n' then some ([c], cs)
    else
      match readStringNL cs with
      | some (l, r) => some (c :: l, r)
      | none => none

/-- The character class trimmed by `strings.TrimSpace` (`unicode.IsSpace`,
restricted to the code points that can occur in LSP header lines). -/
def isSpaceGo (c : Char) : Bool :=
  c == ' ' || c == '\t' || c == '\n' || c == '\u000b' || c == '\u000c' ||
    c == '\r' || c == '\u0085' || c == '\u00A0'

/-- Model of `strings.TrimSpace` on character lists. -/
def trimSpaceCh (s : List Char) : List Char :=
  ((s.dropWhile isSpaceGo).reverse.dropWhile isSpaceGo).reverse

/-- The tail of `strings.SplitN(line, ":", 2)`: everything after the first
colon, or `none` when the line holds no colon (so `len(parts) != 2` and the
Go code leaves `contentLength` unchanged). -/
def splitColonRest : List Char → Option (List Char)
  | [] => none
  | c :: cs => if c = ':' then some cs else splitColonRest cs

/-- The digit run of `strconv.Atoi`: all characters must be decimal digits
and at least one must be present, otherwise a syntax error. -/
def parseDigits (s : List Char) : Option Nat :=
  if s = [] then none
  else if s.all (fun c => c.isDigit) then
    some (s.foldl (fun a c => a * 10 + (c.toNat - '0'.toNat)) 0)
  else none

/-- Model of `strconv.Atoi` (client.go line 398): optional sign then digits.  The
returned pair is (value, ok); on a syntax error Go returns value 0 with a
non-nil error, and the call site `contentLength, _ = strconv.Atoi(...)`
discards the error and keeps the value.  (Go additionally clamps
out-of-range inputs; no claim depends on that, and header lengths that large
never fit a real stream.) -/
def atoi : List Char → Int × Bool
  | '+' :: rest =>
    match parseDigits rest with
    | some v => ((v : Int), true)
    | none => (0, false)
  | '-' :: rest =>
    match parseDigits rest with
    | some v => (-(v : Int), true)
    | none => (0, false)
  | s =>
    match parseDigits s with
    | some v => ((v : Int), true)
    | none => (0, false)

/-- The header-reading loop of `readLoop` (client.go lines 383-401): read a
line; on stream end, return (`none`); trim it; an empty line ends the header
block; a line starting with `Content-Length:` overwrites the length with the
`Atoi` value of what follows the colon (0 when unparsable, the error being
discarded); every other line is ignored.  The fuel argument only bounds the
recursion — each iteration consumes at least one character, so
`stream.length + 1` is always enough. -/
def readHeadersFuel : Nat → List Char → Int → Option (Int × List Char)
  | 0, _, _ => none
  | fuel + 1, stream, cl =>
    match readStringNL stream with
    | none => none
    | some (line, rest) =>
      let t := trimSpaceCh line
      if t = [] then some (cl, rest)
      else
        let cl' :=
          if hasPrefixCh t "Content-Length:".data then
            match splitColonRest t with
            | some tail => (atoi (trimSpaceCh tail)).1
            | none => cl
          else cl
        readHeadersFuel fuel rest cl'

/-- One framed read of `readLoop` (client.go lines 382-406): read the header
block starting with `contentLength = 0` (`var contentLength int`, re-declared
each iteration), then read exactly `contentLength` bytes of body with
`io.ReadFull`.  `none` models the read loop returning: stream end inside the
header block or inside the body (and, degenerately, a negative decoded
length, on which the Go `make` would panic).  Otherwise the payload bytes
and the remaining stream are returned. -/
def readMessage (stream : List Char) : Option (List Char × List Char) :=
  match readHeadersFuel (stream.length + 1) stream 0 with
  | none => none
  | some (cl, rest) =>
    if 0 ≤ cl ∧ cl ≤ (rest.length : Int) then
      some (rest.take cl.toNat, rest.drop cl.toNat)
    else none

/-- Observable events of the session manager: correlator registration, wire
writes (requests carry their id), a blocking receive from a response channel
returning (the response being observed), and the shutdown-path lifecycle
steps of `Close`. -/
inductive Event where
  | register (id : Int)
  | sendRequest (method : String) (id : Int)
  | sendNotification (method : String)
  | awaitResponse (id : Int)
  | signalDone
  | closeStdin
  | waitProcess

deriving instance DecidableEq for Event

/-- Discriminator for the blocking receive event. -/
def Event.isAwait : Event → Bool
  | .awaitResponse _ => true
  | _ => false

/-- The session-relevant mutable state of `LSPClient` (client.go lines
16-26): the id counter, the pending-response map, and a supply of fresh
channel handles (`make(chan json.RawMessage, 1)` allocations). -/
structure ClientState where
  nextID : Int
  responses : Int → Option Nat
  chanCount : Nat

/-- Model of `c.getNextID()` acting on the client state. -/
def getNextIDSt (c : ClientState) : Int × ClientState :=
  (c.nextID, { c with nextID := int64wrap (c.nextID + 1) })

/-- Model of `registerResponse` (client.go lines 342-348): allocate a fresh
1-buffered channel, record it under `id`, return its handle; the observable
event is the registration. -/
def registerResponseSt (c : ClientState) (id : Int) : Nat × ClientState × List Event :=
  (c.chanCount,
   { c with
      responses := fun x => if x = id then some c.chanCount else c.responses x
      chanCount := c.chanCount + 1 },
   [Event.register id])

/-- Model of `sendRequest` (client.go lines 350-356): marshal and write the framed
request; observable as a wire write carrying the method and id. -/
def sendRequestEv (method : String) (id : Int) : List Event :=
  [Event.sendRequest method id]

/-- Model of `sendNotification` (client.go lines 358-364): marshal and write the
framed notification. -/
def sendNotificationEv (method : String) : List Event :=
  [Event.sendNotification method]

/-- Model of `<-respChan`: block until the background reader delivers the response
for `id`; the event marks the moment the response is observed. -/
def awaitResponseEv (id : Int) : List Event :=
  [Event.awaitResponse id]

/-- Model of `Initialize` (client.go lines 92-133): build the `initialize` request
with the next id, register a wait on that id, send the request, block on the
response channel, and only then send the `initialized` notification.  The
result is the final state and the trace of observable events in program
order. -/
def initializeOp (c : ClientState) : ClientState × List Event :=
  let r1 := getNextIDSt c
  let id := r1.1
  let r2 := registerResponseSt r1.2 id
  (r2.2.1,
   r2.2.2 ++ sendRequestEv "initialize" id ++ awaitResponseEv id ++
     sendNotificationEv "initialized")

/-- Model of `Close` (client.go lines 69-89): send the `shutdown` request with the
next id (no wait is registered and its response is never awaited), send the
`exit` notification, `close(c.done)` to signal the reader, close stdin, and
wait for the subprocess. -/
def closeOp (c : ClientState) : ClientState × List Event :=
  let r1 := getNextIDSt c
  (r1.2,
   sendRequestEv "shutdown" r1.1 ++ sendNotificationEv "exit" ++
     [Event.signalDone] ++ [Event.closeStdin] ++ [Event.waitProcess])

/-! ## Theorems -/

/-- Wrap-around is the identity on values representable in a signed 64-bit
integer. -/
theorem int64wrap_eq_self (x : Int) (h1 : -9223372036854775808 ≤ x)
    (h2 : x < 9223372036854775808) : int64wrap x = x := by
  unfold int64wrap
  have h3 : (x + 9223372036854775808) % 18446744073709551616
      = x + 9223372036854775808 :=
    Int.emod_eq_of_lt (by omega) (by omega)
  omega

/-- Claim C1: for every valid external position (line, column) with
line ≥ 1 and column ≥ 1 (and representable in Go's 64-bit int), each query
operation (Hover, Definition, References) sends the wire position
(line−1, column−1); every returned wire start position (L, C) is displayed
as (L+1, C+1); and the round trip display(wire(p)) = p holds. -/
theorem claim1_position_conversion (line col : Int)
    (h1 : 1 ≤ line) (h2 : line ≤ 9223372036854775807)
    (h3 : 1 ≤ col) (h4 : col ≤ 9223372036854775807) :
    hoverWirePosition line col = (line - 1, col - 1) ∧
    definitionWirePosition line col = (line - 1, col - 1) ∧
    referencesWirePosition line col = (line - 1, col - 1) ∧
    displayPosition (hoverWirePosition line col).1 (hoverWirePosition line col).2
      = (line, col) ∧
    (∀ l c : Int, 0 ≤ l → l ≤ 9223372036854775806 → 0 ≤ c →
      c ≤ 9223372036854775806 → displayPosition l c = (l + 1, c + 1)) := by
  have wl : int64wrap (line - 1) = line - 1 :=
    int64wrap_eq_self _ (by omega) (by omega)
  have wc : int64wrap (col - 1) = col - 1 :=
    int64wrap_eq_self _ (by omega) (by omega)
  have wl2 : int64wrap (line - 1 + 1) = line - 1 + 1 :=
    int64wrap_eq_self _ (by omega) (by omega)
  have wc2 : int64wrap (col - 1 + 1) = col - 1 + 1 :=
    int64wrap_eq_self _ (by omega) (by omega)
  refine ⟨?_, ?_, ?_, ?_, ?_⟩
  · simp [hoverWirePosition, wl, wc]
  · simp [definitionWirePosition, wl, wc]
  · simp [referencesWirePosition, wl, wc]
  · simp only [hoverWirePosition, displayPosition, wl, wc, wl2, wc2,
      Prod.mk.injEq]
    constructor <;> omega
  · intro l c hl1 hl2 hc1 hc2
    have w1 : int64wrap (l + 1) = l + 1 :=
      int64wrap_eq_self _ (by omega) (by omega)
    have w2 : int64wrap (c + 1) = c + 1 :=
      int64wrap_eq_self _ (by omega) (by omega)
    simp [displayPosition, w1, w2]

/-- Witness for claim C1 at the concrete position (5, 7). -/
theorem claim1_position_conversion_witness :
    hoverWirePosition 5 7 = (5 - 1, 7 - 1) ∧
    displayPosition (hoverWirePosition 5 7).1 (hoverWirePosition 5 7).2
      = (5, 7) :=
  ⟨(claim1_position_conversion 5 7 (by decide) (by decide) (by decide)
      (by decide)).1,
   (claim1_position_conversion 5 7 (by decide) (by decide) (by decide)
      (by decide)).2.2.2.1⟩

/-- Claim C2: for every decoded incoming response carrying a non-empty id,
the dispatch step of the background reader behaves as follows.  If a handle
is registered for that id, the result is delivered to exactly that handle,
the id-to-handle mapping entry is removed at delivery time (so a second
response with the same id is not delivered again — exactly-once delivery),
and every other id's mapping entry is untouched.  If no handle is registered
for that id, the message is silently dropped: the map — and with it every
other in-flight waiter — is unaffected and nothing is delivered. -/
theorem claim2_deliver_once (m : Int → Option Nat) (id : Int) (r : Option Json) :
    (∀ ch, m id = some ch →
      (deliver m id r).2 = some (ch, r) ∧
      (deliver m id r).1 id = none ∧
      (∀ x, x ≠ id → (deliver m id r).1 x = m x) ∧
      (deliver (deliver m id r).1 id r).2 = none) ∧
    (m id = none → deliver m id r = (m, none)) := by
  constructor
  · intro ch h
    refine ⟨?_, ?_, ?_, ?_⟩
    · simp [deliver, h]
    · simp [deliver, h]
    · intro x hx
      simp [deliver, h, hx]
    · simp [deliver, h]
  · intro h
    simp [deliver, h]

/-- Witness for claim C2: a map holding channel 0 under id 1 delivers to
channel 0 and drops the entry. -/
theorem claim2_deliver_once_witness :
    (deliver (fun x => if x = 1 then some 0 else none) 1 none).2
      = some (0, none) :=
  ((claim2_deliver_once (fun x => if x = 1 then some 0 else none) 1 none).1
    0 rfl).1

/-- The ids handed out by `n` successive `getNextID` calls starting from a
nonnegative counter that stays within the signed 64-bit range are exactly
`s, s+1, …, s+n−1`. -/
theorem runCalls_ids (n : Nat) : ∀ s : Int, 0 ≤ s →
    s + n ≤ 9223372036854775808 →
    (runCalls n s).1 = (List.range n).map (fun i : Nat => s + (i : Int)) := by
  induction n with
  | zero => intro s h0 hb; simp [runCalls]
  | succ n ih =>
    intro s h0 hb
    cases n with
    | zero => simp [runCalls, getNextID, List.range_succ]
    | succ m =>
      have hw : int64wrap (s + 1) = s + 1 :=
        int64wrap_eq_self _ (by omega) (by omega)
      have step : (runCalls (m + 1 + 1) s).1
          = s :: (runCalls (m + 1) (int64wrap (s + 1))).1 := rfl
      rw [step, hw, ih (s + 1) (by omega) (by omega)]
      have hsplit : (List.range (m + 1 + 1)).map (fun i : Nat => s + (i : Int))
          = s :: (List.range (m + 1)).map (fun i : Nat => s + 1 + (i : Int)) := by
        rw [List.range_succ_eq_map, List.map_cons, List.map_map]
        simp only [Nat.cast_zero, add_zero]
        refine congrArg (List.cons s) (List.map_congr_left fun i _ => ?_)
        simp only [Function.comp_apply, Nat.succ_eq_add_one]
        push_cast
        ring
      rw [hsplit]

/-- Claim C9: starting from the initial counter value 1, every call of the
id generator returns a fresh, never-before-used id and the ids are strictly
monotonically increasing across the session (for any number of calls a
64-bit session can make).  The Go increment runs under the client mutex, so
a concurrent execution is a sequential interleaving of these atomic
transitions and the theorem covers every such interleaving. -/
theorem claim9_fresh_ids (n : Nat) (h : n ≤ 9223372036854775807) :
    List.Pairwise (· < ·) (runCalls n 1).1 ∧ (runCalls n 1).1.Nodup := by
  have hids := runCalls_ids n 1 (by omega) (by omega)
  rw [hids]
  have hp : List.Pairwise (· < ·)
      ((List.range n).map (fun i : Nat => (1 : Int) + (i : Int))) := by
    refine List.Pairwise.map _ ?_ (List.pairwise_lt_range n)
    intro a b hab
    omega
  exact ⟨hp, hp.imp fun h' => ne_of_lt h'⟩

/-- Witness for claim C9 at three calls: ids 1, 2, 3, all distinct and
increasing. -/
theorem claim9_fresh_ids_witness :
    3 ≤ 9223372036854775807 ∧
    (List.Pairwise (· < ·) (runCalls 3 1).1 ∧ (runCalls 3 1).1.Nodup) :=
  ⟨by decide, claim9_fresh_ids 3 (by decide)⟩

/-- Claim C5: in the initialization handshake the `initialized` notification
is sent only after the response to the `initialize` request has been
observed.  Whenever the trace of `Initialize` is split at the notification,
everything before it already contains the registration of the request id,
the wire write of the `initialize` request, and the blocking receive that
observes its response. -/
theorem claim5_handshake_order (c : ClientState) (l₁ l₂ : List Event)
    (h : (initializeOp c).2
      = l₁ ++ Event.sendNotification "initialized" :: l₂) :
    Event.register c.nextID ∈ l₁ ∧
    Event.sendRequest "initialize" c.nextID ∈ l₁ ∧
    Event.awaitResponse c.nextID ∈ l₁ := by
  have he : (initializeOp c).2
      = [Event.register c.nextID, Event.sendRequest "initialize" c.nextID,
         Event.awaitResponse c.nextID, Event.sendNotification "initialized"] :=
    rfl
  rw [he] at h
  rcases l₁ with _ | ⟨e1, _ | ⟨e2, _ | ⟨e3, _ | ⟨e4, rest⟩⟩⟩⟩ <;> simp_all

/-- Witness for claim C5 from the freshly constructed client state. -/
theorem claim5_handshake_order_witness :
    Event.register 1 ∈
      [Event.register 1, Event.sendRequest "initialize" 1,
       Event.awaitResponse 1] ∧
    Event.sendRequest "initialize" 1 ∈
      [Event.register 1, Event.sendRequest "initialize" 1,
       Event.awaitResponse 1] ∧
    Event.awaitResponse 1 ∈
      [Event.register 1, Event.sendRequest "initialize" 1,
       Event.awaitResponse 1] :=
  claim5_handshake_order ⟨1, fun _ => none, 0⟩
    [Event.register 1, Event.sendRequest "initialize" 1,
     Event.awaitResponse 1] [] rfl

/-- Claim C6: the session close operation performs, in order: send the
`shutdown` request (without registering or awaiting its response), send the
`exit` notification, signal the background reader to stop, close the
subprocess input stream, and wait for the subprocess to terminate; no
blocking receive occurs anywhere in the trace, so the shutdown response is
never awaited before `exit` is sent. -/
theorem claim6_close_order (c : ClientState) :
    (closeOp c).2
      = [Event.sendRequest "shutdown" c.nextID, Event.sendNotification "exit",
         Event.signalDone, Event.closeStdin, Event.waitProcess] ∧
    ((closeOp c).2.all fun e => ! e.isAwait) = true := by
  exact ⟨rfl, rfl⟩

/-- A stream holding no newline can never complete a header line:
`ReadString('\n')` returns an error and `readLoop` returns. -/
theorem readStringNL_eq_none (s : List Char) (h : ∀ c ∈ s, c ≠ '\n') :
    readStringNL s = none := by
  induction s with
  | nil => rfl
  | cons c cs ih =>
    have hc : c ≠ '\n' := h c (by simp)
    have ih' : readStringNL cs = none := ih fun x hx => h x (by simp [hx])
    simp [readStringNL, hc, ih']

/-- Counterexample to claim C3: a frame whose header block carries no
`Content-Length` header at all, and one whose `Content-Length` value is
unparsable, are both read *successfully* (with a zero-length body) instead
of failing with a transport error — the code discards the `Atoi` error
(`contentLength, _ = strconv.Atoi(...)`) and a missing header simply leaves
the zero-initialized length. -/
theorem claim3_transport_counterexample :
    readMessage "X-Header: yes\r\n\r\n".data = some ([], []) ∧
    readMessage "Content-Length: twelve\r\n\r\nrest".data
      = some ([], "rest".data) :=
  ⟨rfl, rfl⟩

/-- Claim C3 as amended: the framed read fails (the reader returns) if the
stream closes before a complete frame is read — before a header line is
terminated or before the announced body length is available; a missing or
unparsable `Content-Length` header is NOT fatal: the length stays 0, a
zero-length body is read and the frame is consumed; any other malformed
header line is ignored and is not fatal. -/
theorem claim3_transport_amended (s : List Char) (h : ∀ c ∈ s, c ≠ '\n') :
    readMessage s = none ∧
    readMessage "Content-Length: 4\r\n\r\nab".data = none ∧
    readMessage "X-Header: yes\r\n\r\nrest".data = some ([], "rest".data) ∧
    readMessage "Content-Length: oops\r\n\r\nrest".data
      = some ([], "rest".data) ∧
    readMessage "!!garbage!!\r\nContent-Length: 2\r\n\r\nhi!".data
      = some ("hi".data, "!".data) := by
  refine ⟨?_, rfl, rfl, rfl, rfl⟩
  have hh : readHeadersFuel (s.length + 1) s 0 = none := by
    simp [readHeadersFuel, readStringNL_eq_none s h]
  simp [readMessage, hh]

/-- Witness for claim C3 (amended) on a stream that closes before the first
header line is complete. -/
theorem claim3_transport_amended_witness :
    readMessage "abc".data = none :=
  (claim3_transport_amended "abc".data (by decide)).1

/-- A list is a prefix of itself followed by anything. -/
theorem hasPrefixCh_append (p r : List Char) :
    hasPrefixCh (p ++ r) p = true := by
  induction p with
  | nil => rfl
  | cons c cs ih => simpa [hasPrefixCh, prefHolds] using ih

/-- Trimming a leading segment that is literally there drops exactly it. -/
theorem trimPrefixCh_append (p r : List Char) :
    trimPrefixCh (p ++ r) p = r := by
  simp [trimPrefixCh, hasPrefixCh_append]

/-- A list is a suffix of anything followed by itself. -/
theorem hasSuffixCh_append (r p : List Char) :
    hasSuffixCh (r ++ p) p = true := by
  simp [hasSuffixCh, List.reverse_append]
  have := hasPrefixCh_append p.reverse r.reverse
  simpa using this

/-- Trimming a trailing segment that is literally there drops exactly it. -/
theorem trimSuffixCh_append (r p : List Char) :
    trimSuffixCh (r ++ p) p = r := by
  have hlen : (r ++ p).length - p.length = r.length := by simp
  simp [trimSuffixCh, hasSuffixCh_append, hlen]

/-- Counterexample to claim C4: a value beginning with a fenced code block
marker tagged with a language other than `go` is NOT stripped — the code
only trims the literal prefixes ```` ```go\n ```` and ```` ```\n ````.  The
value `"```rust\nfoo\n```"` begins with a language-tagged fence marker and
ends with a closing fence marker, yet it is displayed as `"```rust\nfoo"`,
not `"foo"`. -/
theorem claim4_fence_counterexample :
    displayHoverValue "```rust\nfoo\n```" ≠ "foo" ∧
    displayHoverInfo (.obj [("value", .str "```rust\nfoo\n```")])
      = ["```rust\nfoo"] :=
  ⟨by decide, rfl⟩

/-- Claim C4 as amended: when an object's `value` string begins with the
go-tagged fence marker ```` ```go\n ```` or the untagged fence marker
```` ```\n ```` the opening fence is stripped, and a trailing ``` `\n```` ``
closing fence is stripped, before display (other language tags are not
stripped); in particular the value `"```go\nfoo\n```"` is displayed as
`"foo"`. -/
theorem claim4_fence_amended :
    displayHoverValue "```go\nfoo\n```" = "foo" ∧
    (∀ body : List Char,
      displayHoverValueCh ("```go\n".data ++ body)
        = trimSuffixCh (trimPrefixCh body "```\n".data) "\n```".data) ∧
    (∀ body : List Char,
      displayHoverValueCh ("```\n".data ++ body)
        = trimSuffixCh body "\n```".data) ∧
    (∀ body : List Char,
      hasPrefixCh (body ++ "\n```".data) "```go\n".data = false →
      hasPrefixCh (body ++ "\n```".data) "```\n".data = false →
      displayHoverValueCh (body ++ "\n```".data) = body) := by
  refine ⟨by decide, fun body => rfl, fun body => rfl, fun body h1 h2 => ?_⟩
  simp [displayHoverValueCh, trimPrefixCh, h1, h2, trimSuffixCh_append]

/-- Witness for claim C4 (amended) at the body `"foo"`. -/
theorem claim4_fence_amended_witness :
    displayHoverValueCh ("foo".data ++ "\n```".data) = "foo".data :=
  claim4_fence_amended.2.2.2 "foo".data (by decide) (by decide)

/-- Counterexample to claim C7: a hover response whose `contents` member is
a number — none of null, a string, an object with a string `value`, or a
sequence of those — is NOT surfaced as an error: the type switch in
`displayHoverInfo` matches no case, nothing is printed, the operation
returns success and the process exits 0. -/
theorem claim7_decode_counterexample :
    hoverHandleResponse (some (.obj [("contents", .num 5)])) = .ok [] ∧
    mainExitCode (hoverHandleResponse (some (.obj [("contents", .num 5)])))
      = 0 :=
  ⟨rfl, rfl⟩

/-- Claim C7 as amended: only a response body that cannot be decoded into
the expected top-level structure (for hover: a body that is neither a JSON
object nor null, or an absent/nil raw result) is surfaced to the caller as
an error (exit code 1); once the body decodes, a `contents` member of
unexpected shape is silently ignored — nothing is printed and the operation
reports success (exit code 0). -/
theorem claim7_decode_amended :
    (∀ s, mainExitCode (hoverHandleResponse (some (.str s))) = 1) ∧
    (∀ n, mainExitCode (hoverHandleResponse (some (.num n))) = 1) ∧
    (∀ b, mainExitCode (hoverHandleResponse (some (.bool b))) = 1) ∧
    (∀ items, mainExitCode (hoverHandleResponse (some (.arr items))) = 1) ∧
    mainExitCode (hoverHandleResponse none) = 1 ∧
    (∀ fields, mainExitCode (hoverHandleResponse (some (.obj fields))) = 0) ∧
    (∀ n, displayHoverInfo (.num n) = []) ∧
    (∀ b, displayHoverInfo (.bool b) = []) ∧
    displayHoverInfo (.obj [("kind", .str "markdown")]) = [] :=
  ⟨fun _ => rfl, fun _ => rfl, fun _ => rfl, fun _ => rfl, rfl,
   fun _ => rfl, fun _ => rfl, fun _ => rfl, rfl⟩

/-- Counterexample to claim C8: the empty location list prints the line
"No locations found" (capital N), not the literal "no locations found"
quoted by the claim. -/
theorem claim8_empty_counterexample :
    definitionHandleResponse (some (.arr [])) = .ok ["No locations found"] ∧
    "No locations found" ≠ "no locations found" :=
  ⟨rfl, by decide⟩

/-- Claim C8 as amended: for every definition or references query whose
result is null or an empty location list, the program prints the literal
"No locations found" message (rather than printing nothing), the operation
returns success, and the process exit code is 0. -/
theorem claim8_empty_amended :
    definitionHandleResponse (some .null) = .ok ["No locations found"] ∧
    mainExitCode (definitionHandleResponse (some .null)) = 0 ∧
    definitionHandleResponse (some (.arr [])) = .ok ["No locations found"] ∧
    mainExitCode (definitionHandleResponse (some (.arr []))) = 0 ∧
    referencesHandleResponse (some .null) = .ok ["No locations found"] ∧
    mainExitCode (referencesHandleResponse (some .null)) = 0 ∧
    referencesHandleResponse (some (.arr [])) = .ok ["No locations found"] ∧
    mainExitCode (referencesHandleResponse (some (.arr []))) = 0 ∧
    (∀ resp : Option Json, parseLocations resp = .ok [] →
      definitionHandleResponse resp = .ok ["No locations found"] ∧
      referencesHandleResponse resp = .ok ["No locations found"] ∧
      mainExitCode (definitionHandleResponse resp) = 0 ∧
      mainExitCode (referencesHandleResponse resp) = 0) := by
  refine ⟨rfl, rfl, rfl, rfl, rfl, rfl, rfl, rfl, ?_⟩
  intro resp h
  simp [definitionHandleResponse, referencesHandleResponse, mainExitCode, h,
    displayLocations]

/-- Witness for claim C8 (amended) at the null response. -/
theorem claim8_empty_amended_witness :
    definitionHandleResponse (some .null) = .ok ["No locations found"] ∧
    referencesHandleResponse (some .null) = .ok ["No locations found"] ∧
    mainExitCode (definitionHandleResponse (some .null)) = 0 ∧
    mainExitCode (referencesHandleResponse (some .null)) = 0 :=
  claim8_empty_amended.2.2.2.2.2.2.2.2 (some .null) rfl

/-- Counterexample to claim C10: a JSON-RPC error response (which has no
`result` member) delivers the nil raw message to the waiter, and the hover
operation then FAILS to parse the empty payload — it reports an error and
exit code 1 rather than displaying "No hover information available" and
reporting success. -/
theorem claim10_error_response_counterexample :
    decodeMessage (.obj [("jsonrpc", .str "2.0"), ("id", .num 1),
        ("error", .obj [("code", .num (-32600)), ("message", .str "bad")])])
      = some (some 1, none) ∧
    hoverHandleResponse none ≠ .ok ["No hover information available"] ∧
    mainExitCode (hoverHandleResponse none) = 1 :=
  ⟨rfl, fun h => Except.noConfusion h, rfl⟩

/-- Claim C10 as amended: the background reader decodes only the `id` and
`result` members and discards any `error` member; for a JSON-RPC error
response (no `result` member) the waiter therefore receives the nil raw
result, and a hover query whose request was answered with an error fails
with a parse error on the empty payload (exit code 1).  Only a response
whose `result` member is the explicit literal null yields the
"No hover information available" message with success. -/
theorem claim10_error_response_amended :
    (∀ (id : Int) (e : Json),
      decodeMessage (.obj [("jsonrpc", .str "2.0"), ("id", .num id),
          ("error", e)])
        = some (some id, none)) ∧
    hoverHandleResponse none = .error "unexpected end of JSON input" ∧
    mainExitCode (hoverHandleResponse none) = 1 ∧
    decodeMessage (.obj [("jsonrpc", .str "2.0"), ("id", .num 1),
        ("result", .null)])
      = some (some 1, some .null) ∧
    hoverHandleResponse (some .null) = .ok ["No hover information available"] :=
  ⟨fun _ _ => rfl, rfl, rfl, rfl, rfl⟩
